import Mathlib

/-!
Shallow embedding of `src/request_cert.py` (CertCenter certificate request CLI).

The script is a linear pipeline: read CSR file → `token_handling` →
`cc_validate_name` → `cc_get_dns_data` → `verify_dns_record` (DNS poll) →
`cc_request_cert` → `dump_cert`.  Every external effect (filesystem, HTTP,
DNS) is modelled by an oracle value supplied in an `Env` record, and the
whole `__main__` block becomes the pure function `runMain`, which returns
the exit code, the list of CertCenter API calls made, and the contents of
the two output files.  `exit(n)` and uncaught exceptions (which make the
Python interpreter exit with status 1) are modelled as an exit code in the
result.  The unbounded DNS propagation loop is modelled with explicit fuel:
`runMain env fuel = none` means the process is still inside the poll loop
after `fuel` lookup attempts.
-/

namespace RequestCert

/-- Source line 59: `CC_TOKEN_ENDPOINT = 'https://api.certcenter.com/oauth2/token'`. -/
def CC_TOKEN_ENDPOINT : String := "https://api.certcenter.com/oauth2/token"

/-- The record cached in `token.json` (source lines 106-108):
`{'access_token': ..., 'expires_at': ..., 'host': ...}`.
Timestamps are modelled as integers (`expires_at` is stored with `int(...)`
in the source). -/
structure TokenCache where
  access_token : String
  expires_at : Int
  host : String
deriving DecidableEq, Repr

/-- The JSON body of a successful token-endpoint response, as the script
reads it: `json_response['access_token']` and `json_response['expires_in']`. -/
structure TokenResponse where
  access_token : String
  expires_in : Int
deriving DecidableEq, Repr

/-- Outcome of the `requests.post` to the token endpoint as observed by the
`try` block in `token_handling`: either a parsed success body, or any
exception together with the HTTP status code `r.status_code` that the
`except` handler inspects. -/
inductive NetResult where
  | ok (resp : TokenResponse)
  | err (status : Int)
deriving DecidableEq, Repr

/-- How a call to `token_handling` ends: `ret v` models a Python `return v`
(with `v = none` for the implicit `return None` fall-through), `exited c`
models `exit(c)`. -/
inductive TokenOutcome where
  | ret (tok : Option String)
  | exited (code : Nat)
deriving DecidableEq, Repr

/-- Observable result of `token_handling`: its outcome, whether the token
endpoint was contacted, and what (if anything) was written to `token.json`. -/
structure TokenHandlingResult where
  outcome : TokenOutcome
  networkCalled : Bool
  cacheWritten : Option TokenCache
deriving DecidableEq, Repr

/-- `token_handling` (source lines 63-121).
* If `token.json` exists and `token_file['expires_at'] > time.time() + 30`,
  the cached token is returned (lines 73-80).
* If the file exists but the token is not valid, the function falls off the
  end of the `if` (there is no inner `else`), returning `None`.
* If the file does not exist: empty `client_id`/`client_secret` exit(1)
  (lines 84-86); otherwise the endpoint is called, the new token is cached
  with `expires_at = int(expires_in + time.time())` and `host` the token
  endpoint (lines 104-110); any exception exits(1) (lines 114-121, both the
  status-400 branch and the generic branch call `exit(1)`). -/
def token_handling (fileExists : Bool) (cached : TokenCache) (now : Int)
    (clientId clientSecret : String) (net : NetResult) : TokenHandlingResult :=
  if fileExists then
    if cached.expires_at > now + 30 then
      ⟨.ret (some cached.access_token), false, none⟩
    else
      ⟨.ret none, false, none⟩
  else
    if clientId = "" ∨ clientSecret = "" then
      ⟨.exited 1, false, none⟩
    else
      match net with
      | .ok resp =>
          ⟨.ret (some resp.access_token), true,
            some ⟨resp.access_token, resp.expires_in + now, CC_TOKEN_ENDPOINT⟩⟩
      | .err _ => ⟨.exited 1, true, none⟩

/-- The TXT-record comparison of source line 230:
`value == "\"{}\"".format(txt_value)`, i.e. the record string must equal the
challenge wrapped in literal ASCII double quotes. -/
def recordMatches (txt_value value : String) : Bool :=
  value == "\"" ++ txt_value ++ "\""

/-- The value of the local variable `accurate` after the `for rdata in
dns_answers` loop of source lines 226-233: each iteration overwrites
`accurate` with the comparison result for the current record, so the fold
keeps only the last record's verdict; `none` models the variable never
being assigned (empty answer sequence). -/
def accurateAfter (txt_value : String) (records : List String) : Option Bool :=
  records.foldl (fun _ v => some (recordMatches txt_value v)) none

/-- How `verify_dns_record` ends once an answer has been obtained
(source lines 240-245): `matched` models `return True`; `mismatchExit`
models the `exit(1)` of line 245; `nameError` models the uncaught
`NameError` raised at line 240 when `accurate` was never assigned
(the interpreter then exits with status 1). -/
inductive VerifyResult where
  | matched
  | mismatchExit
  | nameError
deriving DecidableEq, Repr

/-- The decision `verify_dns_record` takes on the answer list of the
successful lookup (source lines 226-245). -/
def verify_decision (txt_value : String) (records : List String) : VerifyResult :=
  match accurateAfter txt_value records with
  | some true => .matched
  | some false => .mismatchExit
  | none => .nameError

/-- The `while not found` poll of source lines 214-238, with explicit fuel.
`lookups n` is the outcome of the `n`-th `dns_resolver.query` call: `none`
models any exception (record not yet visible), `some ans` a returned answer
sequence.  The loop exits at the first `some`; `dnsPollAux lookups start
fuel = none` means no answer appeared within `fuel` attempts and the loop
is still running. -/
def dnsPollAux (lookups : Nat → Option (List String)) : Nat → Nat → Option (Nat × List String)
  | _, 0 => none
  | start, fuel + 1 =>
      match lookups start with
      | some ans => some (start, ans)
      | none => dnsPollAux lookups (start + 1) fuel

/-- The `time.sleep` durations (seconds) performed by the poll loop body
over the first `fuel` attempts: a successful lookup sleeps 3 seconds
(line 224), a failed one sleeps 30 seconds before the next attempt
(line 238).  The additional fixed 30-second sleep of line 212 happens once
before the loop and is not part of this per-attempt list. -/
def verify_dns_sleeps (lookups : Nat → Option (List String)) : Nat → Nat → List Nat
  | _, 0 => []
  | start, fuel + 1 =>
      match lookups start with
      | some _ => [3]
      | none => 30 :: verify_dns_sleeps lookups (start + 1) fuel

/-- One CertCenter API request made by the script, with the bearer token and
the payload fields relevant to the claims. -/
inductive ApiCall where
  | tokenReq
  | validateName (token : Option String) (fqdn : String)
  | dnsData (token : Option String) (csr : String)
  | order (token : Option String) (csr : String) (validity : Int)
deriving DecidableEq, Repr

/-- The fields of the `ValidateName` JSON response the script reads
(source lines 146-156): `json['success']` and `json['IsQualified']`. -/
structure ValidateNameResp where
  success : Bool
  isQualified : Bool
deriving DecidableEq, Repr

/-- The fields of the `Order` JSON response the script reads
(source lines 272-278). -/
structure OrderResp where
  success : Bool
  pkcs7 : String
  intermediate : String
  signed_cert : String
  expiration : String
deriving DecidableEq, Repr

/-- Everything external a run of the script observes: CLI/config inputs,
filesystem contents, and one oracle per network interaction.  `none` for a
response models an exception in the corresponding `try` block (HTTP error
raised by `raise_for_status`, JSON shape mismatch `KeyError`, connection
error, ...); `csrContent = none` models the CSR file failing to open (an
uncaught exception at source line 353, interpreter exit status 1);
`certWriteOk` / `chainWriteOk = false` model the two `open(..., "w")` write
blocks of `dump_cert` raising (lines 300-309 and 311-322, each `exit(1)`). -/
structure Env where
  fqdn : String
  csrContent : Option String
  validity : Int
  tokenFileExists : Bool
  tokenFile : TokenCache
  now : Int
  clientId : String
  clientSecret : String
  tokenNet : NetResult
  validateResp : Option ValidateNameResp
  dnsDataResp : Option String
  dnsLookups : Nat → Option (List String)
  orderResp : Option OrderResp
  certWriteOk : Bool
  chainWriteOk : Bool

/-- Observable outcome of a completed run: process exit code, the sequence
of CertCenter API calls issued, and the contents written to
`<fqdn>_cert.pem` and `<fqdn>_cert-chained.pem` (if reached). -/
structure RunResult where
  exitCode : Nat
  calls : List ApiCall
  certFile : Option String
  chainFile : Option String
deriving DecidableEq, Repr

/-- The `__main__` block (source lines 325-384) as a function of the
environment.  `fuel` bounds the DNS poll loop; the result is `none` when
the run is still inside that loop after `fuel` lookups (the only
non-terminating part of the script).  Faithful points: the CSR string read
at line 354 is passed unmodified to both `cc_get_dns_data` (payload `CSR`)
and `cc_request_cert` (payload `OrderParameters.CSR`); `cc_validate_name`
exits 1 when `success` is falsy or when `IsQualified` is falsy
(lines 146-156); a mismatching final TXT record exits 1 before the Order
call (line 245); `dump_cert` writes `signed_cert` to the first file and
`signed_cert`, `"\n"`, `intermediate` to the second (lines 301-316); the
script ends with `exit(0)` (line 384). -/
def runMain (env : Env) (fuel : Nat) : Option RunResult :=
  match env.csrContent with
  | none => some ⟨1, [], none, none⟩
  | some csr =>
    let th := token_handling env.tokenFileExists env.tokenFile env.now
        env.clientId env.clientSecret env.tokenNet
    let calls0 : List ApiCall := if th.networkCalled then [.tokenReq] else []
    match th.outcome with
    | .exited code => some ⟨code, calls0, none, none⟩
    | .ret tok =>
      let calls1 := calls0 ++ [.validateName tok env.fqdn]
      match env.validateResp with
      | none => some ⟨1, calls1, none, none⟩
      | some v =>
        if v.success = false then some ⟨1, calls1, none, none⟩
        else if v.isQualified = false then some ⟨1, calls1, none, none⟩
        else
          let calls2 := calls1 ++ [.dnsData tok csr]
          match env.dnsDataResp with
          | none => some ⟨1, calls2, none, none⟩
          | some txt =>
            match dnsPollAux env.dnsLookups 0 fuel with
            | none => none
            | some (_, ans) =>
              match verify_decision txt ans with
              | .nameError => some ⟨1, calls2, none, none⟩
              | .mismatchExit => some ⟨1, calls2, none, none⟩
              | .matched =>
                let calls3 := calls2 ++ [.order tok csr env.validity]
                match env.orderResp with
                | none => some ⟨1, calls3, none, none⟩
                | some o =>
                  if o.success = false then some ⟨1, calls3, none, none⟩
                  else if env.certWriteOk = false then
                    some ⟨1, calls3, none, none⟩
                  else if env.chainWriteOk = false then
                    some ⟨1, calls3, some o.signed_cert, none⟩
                  else
                    some ⟨0, calls3, some o.signed_cert,
                      some (o.signed_cert ++ "\n" ++ o.intermediate)⟩

/-- Number of token-endpoint requests in a call trace. -/
def countToken : List ApiCall → Nat
  | [] => 0
  | .tokenReq :: rest => countToken rest + 1
  | _ :: rest => countToken rest

/-- Number of `ValidateName` requests in a call trace. -/
def countValidate : List ApiCall → Nat
  | [] => 0
  | .validateName _ _ :: rest => countValidate rest + 1
  | _ :: rest => countValidate rest

/-- Number of `DNSData` requests in a call trace. -/
def countDnsData : List ApiCall → Nat
  | [] => 0
  | .dnsData _ _ :: rest => countDnsData rest + 1
  | _ :: rest => countDnsData rest

/-- Number of `Order` requests in a call trace. -/
def countOrder : List ApiCall → Nat
  | [] => 0
  | .order _ _ _ :: rest => countOrder rest + 1
  | _ :: rest => countOrder rest

/-! ## Helper lemmas -/

/-- A fold that overwrites its accumulator with the verdict of each record
ends with the verdict of the last record, whatever the initial accumulator. -/
theorem foldl_verdict_last (txt : String) :
    ∀ (l : List String) (r : String), l.getLast? = some r →
      ∀ acc : Option Bool,
        List.foldl (fun _ v => some (recordMatches txt v)) acc l =
          some (recordMatches txt r)
  | [], r, h, acc => by simp at h
  | [a], r, h, acc => by
      simp [List.getLast?] at h
      subst h
      rfl
  | a :: b :: l, r, h, acc => by
      rw [List.getLast?_cons_cons] at h
      rw [List.foldl_cons]
      exact foldl_verdict_last txt (b :: l) r h (some (recordMatches txt a))

/-! ## Claims -/

/-- C10: The TXT comparison is performed against the challenge value wrapped
in literal ASCII double-quote characters: a returned record string `r` is
accepted if and only if `r` equals `"\"" ++ txt ++ "\""` exactly. -/
theorem c10_comparison_is_quote_wrapped (txt r : String) :
    recordMatches txt r = true ↔ r = "\"" ++ txt ++ "\"" := by
  simp [recordMatches]

/-- C9: When the DNS query returns multiple TXT records, the verification
outcome is determined solely by the last record in the answer sequence:
the `accurate` flag ends up holding exactly the last record's verdict, and
`verify_dns_record` succeeds if and only if the final record matches the
expected value, regardless of any earlier record. -/
theorem c9_last_record_decides (txt : String) (records : List String) (r : String)
    (h : records.getLast? = some r) :
    accurateAfter txt records = some (recordMatches txt r) ∧
      (verify_decision txt records = .matched ↔ recordMatches txt r = true) := by
  have ha : accurateAfter txt records = some (recordMatches txt r) :=
    foldl_verdict_last txt records r h none
  refine ⟨ha, ?_⟩
  unfold verify_decision
  rw [ha]
  cases recordMatches txt r <;> simp

/-- Witness for C9 at a concrete two-record answer whose first record does
not match and whose last record does. -/
theorem c9_last_record_decides_witness :
    (["\"x\"", "\"b\""].getLast? = some "\"b\"") ∧
      (accurateAfter "b" ["\"x\"", "\"b\""] = some (recordMatches "b" "\"b\"") ∧
        (verify_decision "b" ["\"x\"", "\"b\""] = .matched ↔
          recordMatches "b" "\"b\"" = true)) :=
  ⟨rfl, c9_last_record_decides "b" ["\"x\"", "\"b\""] "\"b\"" rfl⟩

/-- C2: a cached token file whose stored expiry is strictly greater than the
current time plus 30 seconds makes `token_handling` return the cached access
token, with no request to the token endpoint and no cache write. -/
theorem c2_cached_token_reused (cached : TokenCache) (now : Int)
    (clientId clientSecret : String) (net : NetResult)
    (hvalid : cached.expires_at > now + 30) :
    token_handling true cached now clientId clientSecret net =
      ⟨.ret (some cached.access_token), false, none⟩ := by
  simp [token_handling, hvalid]

/-- Witness for C2: a token expiring at 1000 checked at time 100. -/
theorem c2_cached_token_reused_witness :
    ((⟨"tok", 1000, "h"⟩ : TokenCache).expires_at > (100 : Int) + 30) ∧
      token_handling true ⟨"tok", 1000, "h"⟩ 100 "id" "sec" (.err 0) =
        ⟨.ret (some "tok"), false, none⟩ :=
  ⟨by decide, c2_cached_token_reused ⟨"tok", 1000, "h"⟩ 100 "id" "sec" (.err 0) (by decide)⟩

/-- C7: whenever a new token is acquired (no cache file, credentials
present, token endpoint succeeds), the record persisted to the cache file is
exactly the returned token string, the expiry `expires_in + now`, and the
issuing host `CC_TOKEN_ENDPOINT`. -/
theorem c7_new_token_cache_record (cached : TokenCache) (now : Int)
    (clientId clientSecret : String) (resp : TokenResponse)
    (hid : ¬ clientId = "") (hsec : ¬ clientSecret = "") :
    token_handling false cached now clientId clientSecret (.ok resp) =
      ⟨.ret (some resp.access_token), true,
        some ⟨resp.access_token, resp.expires_in + now, CC_TOKEN_ENDPOINT⟩⟩ := by
  simp [token_handling, hid, hsec]

/-- Witness for C7 at a concrete response with `expires_in = 3600` at
time 500. -/
theorem c7_new_token_cache_record_witness :
    (¬ ("id" : String) = "") ∧ (¬ ("sec" : String) = "") ∧
      token_handling false ⟨"old", 0, "h"⟩ 500 "id" "sec" (.ok ⟨"newtok", 3600⟩) =
        ⟨.ret (some "newtok"), true, some ⟨"newtok", 3600 + 500, CC_TOKEN_ENDPOINT⟩⟩ :=
  ⟨by decide, by decide,
    c7_new_token_cache_record ⟨"old", 0, "h"⟩ 500 "id" "sec" ⟨"newtok", 3600⟩
      (by decide) (by decide)⟩

/-- C5: the DNS propagation poll has no upper bound on attempts.  If the
resolver never returns a TXT record, then for every fuel bound the loop is
still running (`dnsPollAux = none`) and it has slept a fixed 30 seconds
before each retry; and the loop exits only at an attempt where the resolver
actually returned a record. -/
theorem c5_dns_poll_unbounded (lookups : Nat → Option (List String)) :
    ((∀ n, lookups n = none) →
      ∀ (fuel start : Nat),
        dnsPollAux lookups start fuel = none ∧
          verify_dns_sleeps lookups start fuel = List.replicate fuel 30) ∧
      (∀ (start fuel i : Nat) (ans : List String),
        dnsPollAux lookups start fuel = some (i, ans) → lookups i = some ans) := by
  constructor
  · intro h fuel
    induction fuel with
    | zero => intro start; exact ⟨rfl, rfl⟩
    | succ n ih =>
        intro start
        refine ⟨?_, ?_⟩
        · rw [dnsPollAux, h start]
          exact (ih (start + 1)).1
        · rw [verify_dns_sleeps, h start, (ih (start + 1)).2]
          rfl
  · intro start fuel
    induction fuel generalizing start with
    | zero => intro i ans h; exact Option.noConfusion h
    | succ n ih =>
        intro i ans h
        rw [dnsPollAux] at h
        cases hl : lookups start with
        | some a =>
            rw [hl] at h
            obtain ⟨h1, h2⟩ := Prod.mk.injEq .. ▸ Option.some.inj h
            rw [← h1, hl, h2]
        | none =>
            rw [hl] at h
            exact ih (start + 1) i ans h

/-- Witness for C5: with a resolver that never answers, five attempts leave
the loop running having slept 30 seconds before each retry; with a resolver
that answers at once, the loop exits with that resolver's record. -/
theorem c5_dns_poll_unbounded_witness :
    (dnsPollAux (fun _ => none) 0 5 = none ∧
        verify_dns_sleeps (fun _ => none) 0 5 = List.replicate 5 30) ∧
      (fun _ => some ["\"v\""] : Nat → Option (List String)) 0 = some ["\"v\""] :=
  ⟨(c5_dns_poll_unbounded (fun _ => none)).1 (fun _ => rfl) 5 0,
    (c5_dns_poll_unbounded (fun _ => some ["\"v\""])).2 0 1 0 ["\"v\""] rfl⟩

/-- C8: if the token cache file exists but its stored expiry is not greater
than the current time plus 30 seconds, `token_handling` returns `None`
without contacting the token endpoint, printing no error and not
terminating; the pipeline then proceeds, calling `ValidateName` with `None`
as the bearer token. -/
theorem c8_expired_cache_returns_none (env : Env) (fuel : Nat) (res : RunResult)
    (csr : String)
    (hfile : env.tokenFileExists = true)
    (hexp : env.tokenFile.expires_at ≤ env.now + 30)
    (hcsr : env.csrContent = some csr)
    (hrun : runMain env fuel = some res) :
    token_handling env.tokenFileExists env.tokenFile env.now env.clientId
        env.clientSecret env.tokenNet = ⟨.ret none, false, none⟩ ∧
      res.calls.head? = some (.validateName none env.fqdn) := by
  have h1 : token_handling env.tokenFileExists env.tokenFile env.now env.clientId
      env.clientSecret env.tokenNet = ⟨.ret none, false, none⟩ := by
    rw [hfile]
    simp [token_handling, not_lt.mpr hexp]
  refine ⟨h1, ?_⟩
  unfold runMain at hrun
  rw [hcsr, h1] at hrun
  simp only at hrun
  repeat' split at hrun
  all_goals first
    | exact Option.noConfusion hrun
    | exact absurd ‹false = true› (by simp)
    | (obtain rfl := Option.some.inj hrun; simp)

/-- A concrete environment for the C8 witness: a cache file holding a token
already expired (expiry 100, current time 100), with the `ValidateName`
call then failing. -/
def envC8 : Env where
  fqdn := "example.com"
  csrContent := some "CSRDATA"
  validity := 365
  tokenFileExists := true
  tokenFile := ⟨"oldtok", 100, "h"⟩
  now := 100
  clientId := "id"
  clientSecret := "sec"
  tokenNet := .err 0
  validateResp := some ⟨false, false⟩
  dnsDataResp := none
  dnsLookups := fun _ => none
  orderResp := none
  certWriteOk := true
  chainWriteOk := true

/-- Witness for C8 on `envC8`. -/
theorem c8_expired_cache_returns_none_witness :
    token_handling envC8.tokenFileExists envC8.tokenFile envC8.now envC8.clientId
        envC8.clientSecret envC8.tokenNet = ⟨.ret none, false, none⟩ ∧
      (⟨1, [.validateName none "example.com"], none, none⟩ : RunResult).calls.head? =
        some (.validateName none envC8.fqdn) :=
  c8_expired_cache_returns_none envC8 1 ⟨1, [.validateName none "example.com"], none, none⟩
    "CSRDATA" rfl (by decide) rfl rfl

/-- `token_handling` either returns (possibly `None`) or exits with status 1:
no other exit code is possible. -/
theorem token_handling_outcome_cases (fe : Bool) (cached : TokenCache) (now : Int)
    (cid csec : String) (net : NetResult) :
    (∃ tok, (token_handling fe cached now cid csec net).outcome = .ret tok) ∨
      (token_handling fe cached now cid csec net).outcome = .exited 1 := by
  unfold token_handling
  repeat' split
  all_goals simp

/-- C6: the CSR text read from the input file is passed through unmodified:
any `DNSData` request and any `Order` request in the call trace carries
exactly the string read from the CSR file. -/
theorem c6_csr_passed_through (env : Env) (fuel : Nat) (res : RunResult)
    (hrun : runMain env fuel = some res) :
    (∀ (t : Option String) (c : String),
        ApiCall.dnsData t c ∈ res.calls → env.csrContent = some c) ∧
      (∀ (t : Option String) (c : String) (v : Int),
        ApiCall.order t c v ∈ res.calls → env.csrContent = some c) := by
  unfold runMain at hrun
  cases hcsr : env.csrContent with
  | none =>
      rw [hcsr] at hrun
      obtain rfl := Option.some.inj hrun
      exact ⟨fun t c hmem => absurd hmem (by simp),
        fun t c v hmem => absurd hmem (by simp)⟩
  | some csr =>
      rw [hcsr] at hrun
      simp only at hrun
      repeat' split at hrun
      all_goals first
        | exact Option.noConfusion hrun
        | (obtain rfl := Option.some.inj hrun
           refine ⟨fun t c hmem => ?_, fun t c v hmem => ?_⟩ <;> simp_all)

/-- A fully successful concrete environment, used to exercise C6: cached
valid token, qualified domain, immediately visible matching TXT record,
successful order and writes. -/
def envC6 : Env where
  fqdn := "example.com"
  csrContent := some "MYCSR"
  validity := 365
  tokenFileExists := true
  tokenFile := ⟨"tok", 1000, "h"⟩
  now := 0
  clientId := "id"
  clientSecret := "sec"
  tokenNet := .err 0
  validateResp := some ⟨true, true⟩
  dnsDataResp := some "chal"
  dnsLookups := fun _ => some ["\"chal\""]
  orderResp := some ⟨true, "P7", "INT", "CERT", "2020-01-01"⟩
  certWriteOk := true
  chainWriteOk := true

/-- The completed run of `envC6`. -/
def resC6 : RunResult :=
  ⟨0, [.validateName (some "tok") "example.com", .dnsData (some "tok") "MYCSR",
      .order (some "tok") "MYCSR" 365], some "CERT", some "CERT\nINT"⟩

/-- Witness for C6: in the successful run of `envC6`, both the `DNSData`
call and the `Order` call carry the CSR file's exact content. -/
theorem c6_csr_passed_through_witness :
    envC6.csrContent = some "MYCSR" ∧ envC6.csrContent = some "MYCSR" :=
  ⟨(c6_csr_passed_through envC6 1 resC6 rfl).1 (some "tok") "MYCSR" (by simp [resC6]),
   (c6_csr_passed_through envC6 1 resC6 rfl).2 (some "tok") "MYCSR" 365 (by simp [resC6])⟩

set_option maxHeartbeats 3200000 in
/-- C4: every failure condition makes the process terminate at once with a
non-zero exit status, and nothing is retried except the DNS propagation
lookup.  The conjuncts cover: an HTTP error from the token endpoint
(`exit(1)`, no further call); a missing config value (`exit(1)` before any
network call); every completed run exiting 0 or 1; a CSR file read failure
(uncaught exception, interpreter status 1, no API call at all); a
`ValidateName` failure aborting before `DNSData` and `Order`; a `DNSData`
failure aborting before `Order`; an `Order` failure leaving both output
files unwritten; each output-file write failure exiting 1; and every
completed run making each CertCenter API call at most once. -/
theorem c4_uniform_failure_policy :
    (∀ (cached : TokenCache) (now : Int) (cid csec : String) (s : Int),
      ¬ cid = "" → ¬ csec = "" →
        token_handling false cached now cid csec (.err s) = ⟨.exited 1, true, none⟩) ∧
    (∀ (cached : TokenCache) (now : Int) (cid csec : String) (net : NetResult),
      (cid = "" ∨ csec = "") →
        token_handling false cached now cid csec net = ⟨.exited 1, false, none⟩) ∧
    (∀ (env : Env) (fuel : Nat) (res : RunResult), runMain env fuel = some res →
      res.exitCode = 0 ∨ res.exitCode = 1) ∧
    (∀ (env : Env) (fuel : Nat) (res : RunResult), runMain env fuel = some res →
      env.csrContent = none → res = ⟨1, [], none, none⟩) ∧
    (∀ (env : Env) (fuel : Nat) (res : RunResult), runMain env fuel = some res →
      env.validateResp = none →
        res.exitCode = 1 ∧ countDnsData res.calls = 0 ∧ countOrder res.calls = 0) ∧
    (∀ (env : Env) (fuel : Nat) (res : RunResult), runMain env fuel = some res →
      env.dnsDataResp = none → res.exitCode = 1 ∧ countOrder res.calls = 0) ∧
    (∀ (env : Env) (fuel : Nat) (res : RunResult), runMain env fuel = some res →
      env.orderResp = none →
        res.exitCode = 1 ∧ res.certFile = none ∧ res.chainFile = none) ∧
    (∀ (env : Env) (fuel : Nat) (res : RunResult), runMain env fuel = some res →
      env.certWriteOk = false → res.exitCode = 1 ∧ res.certFile = none) ∧
    (∀ (env : Env) (fuel : Nat) (res : RunResult), runMain env fuel = some res →
      env.chainWriteOk = false → res.exitCode = 1 ∧ res.chainFile = none) ∧
    (∀ (env : Env) (fuel : Nat) (res : RunResult), runMain env fuel = some res →
      countToken res.calls ≤ 1 ∧ countValidate res.calls ≤ 1 ∧
        countDnsData res.calls ≤ 1 ∧ countOrder res.calls ≤ 1) := by
  refine ⟨?_, ?_, ?_, ?_, ?_, ?_, ?_, ?_, ?_, ?_⟩
  · intro cached now cid csec s hid hsec
    simp [token_handling, hid, hsec]
  · intro cached now cid csec net h
    unfold token_handling
    rw [if_neg (by simp), if_pos h]
  all_goals
    intro env fuel res hrun
    try intro hcond
    unfold runMain at hrun
    try simp only at hrun
    repeat' split at hrun
    all_goals first
      | exact Option.noConfusion hrun
      | (obtain rfl := Option.some.inj hrun
         rcases token_handling_outcome_cases env.tokenFileExists env.tokenFile env.now
             env.clientId env.clientSecret env.tokenNet with ⟨tok2, h2⟩ | h2 <;>
           simp_all [countToken, countValidate, countDnsData, countOrder])

/-- Environment where every stage fails as soon as it is reached: expired
cached token (so `token_handling` returns `None`), `ValidateName` raising,
`DNSData` raising, `Order` raising, both writes failing.  Used to exercise
the failure conjuncts of C4. -/
def envC4 : Env where
  fqdn := "w.example"
  csrContent := some "X"
  validity := 30
  tokenFileExists := true
  tokenFile := ⟨"old", 0, "h"⟩
  now := 0
  clientId := "id"
  clientSecret := "sec"
  tokenNet := .err 500
  validateResp := none
  dnsDataResp := none
  dnsLookups := fun _ => none
  orderResp := none
  certWriteOk := false
  chainWriteOk := false

/-- The completed run of `envC4`: `exit(1)` at the `ValidateName` stage. -/
def resC4 : RunResult := ⟨1, [.validateName none "w.example"], none, none⟩

/-- Environment whose CSR file cannot be read, for the file-I/O conjunct of
C4. -/
def envC4b : Env where
  fqdn := "w.example"
  csrContent := none
  validity := 30
  tokenFileExists := false
  tokenFile := ⟨"old", 0, "h"⟩
  now := 0
  clientId := "id"
  clientSecret := "sec"
  tokenNet := .err 500
  validateResp := none
  dnsDataResp := none
  dnsLookups := fun _ => none
  orderResp := none
  certWriteOk := true
  chainWriteOk := true

/-- Witness for C4: each conjunct applied at a concrete input. -/
theorem c4_uniform_failure_policy_witness :
    token_handling false ⟨"t", 0, "h"⟩ 0 "id" "sec" (.err 500) = ⟨.exited 1, true, none⟩ ∧
    token_handling false ⟨"t", 0, "h"⟩ 0 "" "sec" (.err 500) = ⟨.exited 1, false, none⟩ ∧
    (resC4.exitCode = 0 ∨ resC4.exitCode = 1) ∧
    (⟨1, [], none, none⟩ : RunResult) = ⟨1, [], none, none⟩ ∧
    (resC4.exitCode = 1 ∧ countDnsData resC4.calls = 0 ∧ countOrder resC4.calls = 0) ∧
    (resC4.exitCode = 1 ∧ countOrder resC4.calls = 0) ∧
    (resC4.exitCode = 1 ∧ resC4.certFile = none ∧ resC4.chainFile = none) ∧
    (resC4.exitCode = 1 ∧ resC4.certFile = none) ∧
    (resC4.exitCode = 1 ∧ resC4.chainFile = none) ∧
    (countToken resC4.calls ≤ 1 ∧ countValidate resC4.calls ≤ 1 ∧
      countDnsData resC4.calls ≤ 1 ∧ countOrder resC4.calls ≤ 1) :=
  ⟨c4_uniform_failure_policy.1 ⟨"t", 0, "h"⟩ 0 "id" "sec" 500 (by decide) (by decide),
   c4_uniform_failure_policy.2.1 ⟨"t", 0, "h"⟩ 0 "" "sec" (.err 500) (Or.inl rfl),
   c4_uniform_failure_policy.2.2.1 envC4 1 resC4 rfl,
   c4_uniform_failure_policy.2.2.2.1 envC4b 1 ⟨1, [], none, none⟩ rfl rfl,
   c4_uniform_failure_policy.2.2.2.2.1 envC4 1 resC4 rfl rfl,
   c4_uniform_failure_policy.2.2.2.2.2.1 envC4 1 resC4 rfl rfl,
   c4_uniform_failure_policy.2.2.2.2.2.2.1 envC4 1 resC4 rfl rfl,
   c4_uniform_failure_policy.2.2.2.2.2.2.2.1 envC4 1 resC4 rfl rfl,
   c4_uniform_failure_policy.2.2.2.2.2.2.2.2.1 envC4 1 resC4 rfl rfl,
   c4_uniform_failure_policy.2.2.2.2.2.2.2.2.2 envC4 1 resC4 rfl⟩

/-- Environment for the C1 counterexample: the first (and only) DNS answer
holds two TXT records, a mismatching one first and the matching one last;
every API call succeeds. -/
def envC1 : Env where
  fqdn := "c1.example"
  csrContent := some "CSR1"
  validity := 365
  tokenFileExists := true
  tokenFile := ⟨"tok", 1000, "h"⟩
  now := 0
  clientId := "id"
  clientSecret := "sec"
  tokenNet := .err 0
  validateResp := some ⟨true, true⟩
  dnsDataResp := some "chal"
  dnsLookups := fun _ => some ["\"nope\"", "\"chal\""]
  orderResp := some ⟨true, "P7", "INT", "CERT", "2020-01-01"⟩
  certWriteOk := true
  chainWriteOk := true

/-- The completed run of `envC1`: the Order request is issued and the
process exits 0 although the mismatching record `"\"nope\""` was observed. -/
def resC1 : RunResult :=
  ⟨0, [.validateName (some "tok") "c1.example", .dnsData (some "tok") "CSR1",
      .order (some "tok") "CSR1" 365], some "CERT", some "CERT\nINT"⟩

/-- C1 (counterexample): as stated the claim is false.  It is not the case
that whenever some observed DNS TXT value mismatches the expected challenge
string the program terminates with a failure without reaching the Order
call: in the run of `envC1` the record `"\"nope\""` is observed and
mismatches, yet the loop's last record matches, the Order request is issued
and the process exits 0. -/
theorem c1_counterexample :
    ¬ (∀ (env : Env) (fuel : Nat) (res : RunResult) (txt : String)
        (i : Nat) (ans : List String) (r : String),
        runMain env fuel = some res →
        env.dnsDataResp = some txt →
        dnsPollAux env.dnsLookups 0 fuel = some (i, ans) →
        r ∈ ans →
        recordMatches txt r = false →
        res.exitCode ≠ 0 ∧ countOrder res.calls = 0) := by
  intro h
  have h2 := h envC1 1 resC1 "chal" 0 ["\"nope\"", "\"chal\""] "\"nope\""
    rfl rfl rfl (by simp) (by decide)
  exact h2.1 rfl

/-- C1 (amended): if the LAST TXT record of the answer the poll obtained
does not match the expected challenge string, the program terminates with
exit status 1 and the Order API call is never issued. -/
theorem c1_no_order_after_final_mismatch (env : Env) (fuel : Nat) (res : RunResult)
    (txt : String) (i : Nat) (ans : List String) (r : String)
    (hrun : runMain env fuel = some res)
    (htxt : env.dnsDataResp = some txt)
    (hpoll : dnsPollAux env.dnsLookups 0 fuel = some (i, ans))
    (hlast : ans.getLast? = some r)
    (hmis : recordMatches txt r = false) :
    res.exitCode = 1 ∧ countOrder res.calls = 0 := by
  have hacc : accurateAfter txt ans = some false := by
    have h0 := foldl_verdict_last txt ans r hlast none
    unfold accurateAfter
    rw [h0, hmis]
  unfold runMain at hrun
  try simp only at hrun
  repeat' split at hrun
  all_goals first
    | exact Option.noConfusion hrun
    | (obtain rfl := Option.some.inj hrun
       rcases token_handling_outcome_cases env.tokenFileExists env.tokenFile env.now
           env.clientId env.clientSecret env.tokenNet with ⟨tok2, h2⟩ | h2 <;>
         simp_all [verify_decision, countOrder])

/-- Environment for the C1 witness: the only TXT record the poll sees does
not match the challenge. -/
def envC1w : Env where
  fqdn := "c1w.example"
  csrContent := some "CSR1W"
  validity := 365
  tokenFileExists := true
  tokenFile := ⟨"tok", 1000, "h"⟩
  now := 0
  clientId := "id"
  clientSecret := "sec"
  tokenNet := .err 0
  validateResp := some ⟨true, true⟩
  dnsDataResp := some "chal"
  dnsLookups := fun _ => some ["\"bad\""]
  orderResp := some ⟨true, "P7", "INT", "CERT", "2020-01-01"⟩
  certWriteOk := true
  chainWriteOk := true

/-- The completed run of `envC1w`: `exit(1)` after the TXT mismatch, with no
Order request. -/
def resC1w : RunResult :=
  ⟨1, [.validateName (some "tok") "c1w.example", .dnsData (some "tok") "CSR1W"],
    none, none⟩

/-- Witness for the amended C1 on `envC1w`. -/
theorem c1_no_order_after_final_mismatch_witness :
    resC1w.exitCode = 1 ∧ countOrder resC1w.calls = 0 :=
  c1_no_order_after_final_mismatch envC1w 1 resC1w "chal" 0 ["\"bad\""] "\"bad\""
    rfl rfl rfl rfl (by decide)

/-- Environment for C3: a fully successful run with certificate `"CERT"`
and intermediate `"INT"`. -/
def envC3 : Env where
  fqdn := "c3.example"
  csrContent := some "CSR3"
  validity := 90
  tokenFileExists := true
  tokenFile := ⟨"tok", 1000, "h"⟩
  now := 0
  clientId := "id"
  clientSecret := "sec"
  tokenNet := .err 0
  validateResp := some ⟨true, true⟩
  dnsDataResp := some "chal"
  dnsLookups := fun _ => some ["\"chal\""]
  orderResp := some ⟨true, "P7", "INT", "CERT", "2020-01-01"⟩
  certWriteOk := true
  chainWriteOk := true

/-- The completed run of `envC3`. -/
def resC3 : RunResult :=
  ⟨0, [.validateName (some "tok") "c3.example", .dnsData (some "tok") "CSR3",
      .order (some "tok") "CSR3" 90], some "CERT", some "CERT\nINT"⟩

/-- C3 (counterexample): as stated the claim is false.  The chained output
file does not contain exactly the certificate followed by the intermediate:
`dump_cert` writes a newline between them (source line 314), so for the
successful run of `envC3` the file holds `"CERT\nINT"`, not `"CERTINT"`. -/
theorem c3_counterexample :
    ¬ (∀ (env : Env) (fuel : Nat) (res : RunResult) (o : OrderResp),
        runMain env fuel = some res → res.exitCode = 0 → env.orderResp = some o →
        res.certFile = some o.signed_cert ∧
          res.chainFile = some (o.signed_cert ++ o.intermediate)) := by
  intro h
  have h2 := h envC3 1 resC3 ⟨true, "P7", "INT", "CERT", "2020-01-01"⟩ rfl rfl rfl
  exact absurd h2.2 (by decide)

/-- C3 (amended): after a successful run, the first output file contains
exactly the certificate returned by the CA, and the second contains exactly
the certificate, a newline, then the intermediate. -/
theorem c3_output_file_contents (env : Env) (fuel : Nat) (res : RunResult)
    (o : OrderResp)
    (hrun : runMain env fuel = some res)
    (hexit : res.exitCode = 0)
    (hord : env.orderResp = some o) :
    res.certFile = some o.signed_cert ∧
      res.chainFile = some (o.signed_cert ++ "\n" ++ o.intermediate) := by
  unfold runMain at hrun
  try simp only at hrun
  repeat' split at hrun
  all_goals first
    | exact Option.noConfusion hrun
    | (obtain rfl := Option.some.inj hrun
       rcases token_handling_outcome_cases env.tokenFileExists env.tokenFile env.now
           env.clientId env.clientSecret env.tokenNet with ⟨tok2, h2⟩ | h2 <;>
         simp_all)

/-- Witness for the amended C3 on `envC3`. -/
theorem c3_output_file_contents_witness :
    resC3.certFile = some "CERT" ∧ resC3.chainFile = some ("CERT" ++ "\n" ++ "INT") :=
  c3_output_file_contents envC3 1 resC3 ⟨true, "P7", "INT", "CERT", "2020-01-01"⟩
    rfl rfl rfl

end RequestCert
